import Mathlib

/-!
Shallow embedding of the telemetry normalization, aggregation, filtering and
refresh logic of `src/pages/MachineStatus.tsx`, together with theorems that
settle the specification claims about it.

JavaScript values flowing through the loosely-typed raw records are embedded
as the inductive type `Val`; JS truthiness and nullish-coalescing are embedded
explicitly.  Machine numbers are embedded as `ℚ` (the claims under scrutiny do
not involve NaN or floating-point rounding).
-/

/-- A JavaScript value as it can occur in a raw backend record field. -/
inductive Val where
  | undef
  | null
  | bool (b : Bool)
  | num (q : ℚ)
  | str (s : String)
  deriving DecidableEq, Repr

namespace Val

/-- JS truthiness: `undefined`, `null`, `false`, `0` and `""` are falsy. -/
def truthy : Val → Bool
  | .undef => false
  | .null => false
  | .bool b => b
  | .num q => !(q == 0)
  | .str s => !(s == "")

/-- JS nullishness: `undefined` and `null` (the `??` operator's test). -/
def nullish : Val → Bool
  | .undef => true
  | .null => true
  | _ => false

end Val

/-- The JS expression `a || b`. -/
def jsOr (a b : Val) : Val := if a.truthy then a else b

/-- The JS expression `a ?? b`. -/
def jsNullish (a b : Val) : Val := if a.nullish then b else a

/-- A raw backend record as read by `transformMachineData` — the object fields
the code accesses, each an arbitrary JS value (`Val.undef` when the key is
absent from the object). -/
structure RawRecord where
  device_id : Val
  timestamp : Val
  shift : Val
  design : Val
  count : Val
  efficiency : Val
  error1 : Val
  error2 : Val
  status : Val
  deriving DecidableEq, Repr

/-- The canonical record produced by `transformMachineData` for one row.
`timestamp` is the human-readable string from `Date.prototype.toLocaleString`;
the remaining fields carry whatever JS value the code puts there. -/
structure TransRecord where
  deviceId : Val
  timestamp : String
  shift : Val
  design : Val
  count : Val
  efficiency : Val
  error1 : Val
  error2 : Val
  status : Val
  deriving DecidableEq, Repr

/-- One row of `transformMachineData`.  The environment-dependent date
rendering is a parameter: `fmtDate v` stands for
`new Date(v).toLocaleString()` and `now` for `new Date().toLocaleString()`
(the fallback when `item.timestamp` is falsy). -/
def transformItem (fmtDate : Val → String) (now : String) (item : RawRecord) :
    TransRecord where
  deviceId := jsOr item.device_id (.str "Unknown")
  timestamp := if item.timestamp.truthy then fmtDate item.timestamp else now
  shift := jsOr item.shift (.str "-")
  design := jsOr item.design (.str "-")
  count := jsNullish item.count (.num 0)
  efficiency := jsNullish item.efficiency (.num 0)
  error1 := jsNullish item.error1 (.num 0)
  error2 := jsNullish item.error2 (.num 0)
  status := jsOr item.status (.str "unknown")

/-- `transformMachineData`: maps the transformation over the fetched rows. -/
def transformMachineData (fmtDate : Val → String) (now : String)
    (rows : List RawRecord) : List TransRecord :=
  rows.map (transformItem fmtDate now)

/-- Reading a canonical `TransRecord` back as a raw object: the object produced
by `transformMachineData` has the key `deviceId` but no key `device_id`, so
`item.device_id` on it evaluates to `undefined`; the other keys the
transformation reads coincide. -/
def recordToRaw (r : TransRecord) : RawRecord where
  device_id := .undef
  timestamp := .str r.timestamp
  shift := r.shift
  design := r.design
  count := r.count
  efficiency := r.efficiency
  error1 := r.error1
  error2 := r.error2
  status := r.status

/-- The five canonical status tags of the spec, as JS values. -/
def statusTags : List Val :=
  [.str "running", .str "idle", .str "stopped", .str "maintenance", .str "unknown"]

/-! ## Canonical records, aggregation and filtering

Claims C4–C7 quantify over canonical `MachineRecord`s, i.e. records whose
string fields are strings and whose numeric fields are numbers, as produced
by a well-behaved ingestion.  `buildSummary` and the filter are translated
from the source over this canonical shape: the source's defensive
`(x || 0)` on a number field is `orZero`, and `Number(x)` on a number is the
identity. -/

/-- A canonical machine record (the spec's `MachineRecord` data model). -/
structure MachineRecord where
  deviceId : String
  timestamp : String
  shift : String
  design : String
  count : ℚ
  efficiency : ℚ
  error1 : ℚ
  error2 : ℚ
  status : String
  deriving DecidableEq, Repr

/-- The JS expression `x || 0` restricted to a number `x`. -/
def orZero (q : ℚ) : ℚ := if q = 0 then 0 else q

/-- `Array.from(new Set(xs))`: distinct values in insertion order of first
occurrence. -/
def dedupFirst (l : List String) : List String :=
  l.foldl (fun acc a => if a ∈ acc then acc else acc ++ [a]) []

/-- The `status_summary` object built by `buildSummary`. -/
structure StatusSummary where
  total_machines : ℕ
  running : ℕ
  idle : ℕ
  stopped : ℕ
  maintenance : ℕ
  deriving DecidableEq, Repr

/-- The summary object built by `buildSummary` (`apiSummaryData`). -/
structure SummaryStats where
  total_production : ℚ
  avg_efficiency : ℚ
  total_errors : ℚ
  error1_count : ℚ
  error2_count : ℚ
  status_summary : StatusSummary
  designs : List String
  deriving DecidableEq, Repr

/-- `buildSummary`, translated reduce-by-reduce from the source. -/
def buildSummary (data : List MachineRecord) : SummaryStats where
  total_production := data.foldl (fun sum d => sum + orZero d.count) 0
  avg_efficiency :=
    if data.length = 0 then 0
    else data.foldl (fun sum d => sum + orZero d.efficiency) 0 / data.length
  total_errors := data.foldl (fun sum d => sum + orZero d.error1 + orZero d.error2) 0
  error1_count := data.foldl (fun sum d => sum + orZero d.error1) 0
  error2_count := data.foldl (fun sum d => sum + orZero d.error2) 0
  status_summary :=
    { total_machines := data.length
      running := (data.filter (fun d => d.status == "running")).length
      idle := (data.filter (fun d => d.status == "idle")).length
      stopped := (data.filter (fun d => d.status == "stopped")).length
      maintenance := (data.filter (fun d => d.status == "maintenance")).length }
  designs := dedupFirst (data.map (fun d => d.design))

/-- The four facet selections (`selectedMachine`, `selectedShift`,
`selectedDesign`, `selectedStatus`), each a concrete value or `"all"`. -/
structure FilterSpec where
  device : String
  shift : String
  design : String
  status : String
  deriving DecidableEq, Repr

/-- The predicate of the `machineData.filter(...)` callback computing
`filteredData`, with its early-`return false` chain. -/
def passesFilter (sel : FilterSpec) (item : MachineRecord) : Bool :=
  if sel.device != "all" && item.deviceId != sel.device then false
  else if sel.shift != "all" && item.shift != sel.shift then false
  else if sel.design != "all" && item.design != sel.design then false
  else if sel.status != "all" && item.status != sel.status then false
  else true

/-- `filteredData`: the visible subset of `machineData`. -/
def filteredData (machineData : List MachineRecord) (sel : FilterSpec) :
    List MachineRecord :=
  machineData.filter (passesFilter sel)

/-- The derived values the component recomputes on each render from the
unfiltered `machineData` and the current selections: the visible rows and the
facet option lists (`shifts`, `availableDevices`, the `designs` fallback). -/
structure RenderDerived where
  visible : List MachineRecord
  shifts : List String
  availableDevices : List String
  designsFallback : List String
  deriving Repr

/-- Per-render derivation: `filteredData` is computed from `machineData` and
the selections; `shifts`, `availableDevices` and the `designs` fallback are
computed from the unfiltered `machineData` only. -/
def renderDerived (machineData : List MachineRecord) (sel : FilterSpec) :
    RenderDerived where
  visible := filteredData machineData sel
  shifts := dedupFirst (machineData.map (fun item => item.shift))
  availableDevices := dedupFirst (machineData.map (fun item => item.deviceId))
  designsFallback := dedupFirst (machineData.map (fun item => item.design))

/-! ## Ingestion and the refresh lifecycle

`fetchMachineData` is embedded as a pure transition on the component state:
the outcome of the awaited request is a `FetchOutcome`, and the code after the
`await` (including `catch`/`finally`) is `fetchApply`.  The summary builder is
a parameter (`summarize`), since claims about the lifecycle do not depend on
the summary's arithmetic, and `lastUpdated` (a wall-clock `Date`) is omitted:
the claims concern only the record collection and the summary.  The
interleaving of user actions, timer ticks and request completions is a trace
of `SessionEvent`s folded by `sessionStep`. -/

/-- The possible outcomes of the awaited `fetch` in `fetchMachineData`:
transport rejection, a non-ok HTTP response, or a decoded JSON envelope whose
`data` is a row array (`some rows`) or not an array (`none`). -/
inductive FetchOutcome where
  | netError
  | httpError
  | envelope (success : Bool) (data : Option (List RawRecord)) (message : Option String)
  deriving DecidableEq, Repr

/-- The rows an outcome yields, if the code treats it as a success: every
branch the code `throw`s on (`!response.ok`, `!result.success`,
`!Array.isArray(result.data)`) yields `none` and is caught as a failure. -/
def FetchOutcome.ingestRows : FetchOutcome → Option (List RawRecord)
  | .envelope true (some rows) _ => some rows
  | _ => none

/-- The toast notice emitted by the `catch` branch. -/
structure ToastNotice where
  title : String
  description : String
  status : String
  deriving DecidableEq, Repr

/-- The component state touched by `fetchMachineData`: `machineData`,
`apiSummaryData` (abstracted to `σ`) and the `isLoading` flag. -/
structure DashState (σ : Type) where
  machineData : List TransRecord
  apiSummaryData : Option σ
  isLoading : Bool
  deriving DecidableEq, Repr

/-- The continuation of `fetchMachineData` once its request settles with
outcome `o`: on success it replaces `machineData` and `apiSummaryData`
wholesale; on any failure it leaves both unchanged and emits the warning
toast; `finally` clears `isLoading` either way.  Nothing is rethrown: the
result type carries the notice, not an exception. -/
def fetchApply {σ : Type} (summarize : List TransRecord → σ)
    (fmtDate : Val → String) (now : String) (s : DashState σ)
    (o : FetchOutcome) : DashState σ × Option ToastNotice :=
  match o.ingestRows with
  | some rows =>
      let transformedData := transformMachineData fmtDate now rows
      ({ s with machineData := transformedData
                apiSummaryData := some (summarize transformedData)
                isLoading := false }, none)
  | none =>
      ({ s with isLoading := false },
        some { title := "Error", description := "Failed to fetch machine data."
               status := "warning" })

/-- The dashboard session: the device selection, the auto-refresh flag, the
device parameter of every ingestion request issued so far (in issue order),
and the fetched state. -/
structure SessionState (σ : Type) where
  selectedMachine : String
  autoRefresh : Bool
  requests : List String
  dash : DashState σ
  deriving DecidableEq, Repr

/-- One event of the session interleaving: changing the device facet (whose
effect issues `fetchMachineData(newDevice)`), an auto-refresh timer tick
(which issues `fetchMachineData(selectedMachine)`), switching auto-refresh
off (the cleanup clears the interval but does not cancel in-flight requests),
and the settling of the `i`-th issued request with outcome `o`. -/
inductive SessionEvent where
  | selectDevice (d : String)
  | tick
  | stopAutoRefresh
  | complete (i : ℕ) (o : FetchOutcome)
  deriving DecidableEq, Repr

/-- The session transition.  A `complete` event runs `fetchApply` on the
current state unconditionally: the completion handler in the source consults
neither the current `selectedMachine` nor `autoRefresh` before calling
`setMachineData`/`setApiSummaryData` (there is no staleness guard, abort
signal or ignore flag). -/
def sessionStep {σ : Type} (summarize : List TransRecord → σ)
    (fmtDate : Val → String) (now : String) (s : SessionState σ) :
    SessionEvent → SessionState σ
  | .selectDevice d =>
      { s with selectedMachine := d
               requests := s.requests ++ [d]
               dash := { s.dash with isLoading := true } }
  | .tick =>
      if s.autoRefresh then
        { s with requests := s.requests ++ [s.selectedMachine]
                 dash := { s.dash with isLoading := true } }
      else s
  | .stopAutoRefresh => { s with autoRefresh := false }
  | .complete i o =>
      if i < s.requests.length then
        { s with dash := (fetchApply summarize fmtDate now s.dash o).1 }
      else s

/-- A whole session run: fold the events over the initial state. -/
def runSession {σ : Type} (summarize : List TransRecord → σ)
    (fmtDate : Val → String) (now : String) (s : SessionState σ)
    (events : List SessionEvent) : SessionState σ :=
  events.foldl (sessionStep summarize fmtDate now) s

/-! ## Helper lemmas -/

theorem jsOr_reapply (a b : Val) (hb : b.truthy = true) :
    jsOr (jsOr a b) b = jsOr a b := by
  unfold jsOr
  by_cases h : a.truthy = true <;> simp [h, hb]

theorem jsNullish_reapply (a b : Val) (hb : b.nullish = false) :
    jsNullish (jsNullish a b) b = jsNullish a b := by
  unfold jsNullish
  by_cases h : a.nullish = true <;> simp [h, hb]

theorem jsNullish_zero_eq_zero_iff (a : Val) :
    jsNullish a (.num 0) = .num 0 ↔ (a = .null ∨ a = .undef ∨ a = .num 0) := by
  unfold jsNullish
  cases a <;> simp [Val.nullish]

theorem orZero_eq (q : ℚ) : orZero q = q := by
  unfold orZero
  split <;> simp_all

/-- Concrete date-rendering environment for concrete evaluations. -/
def fmt0 : Val → String := fun _ => "1/1/2025, 12:00:00 AM"

/-- Concrete normalization-time fallback timestamp. -/
def now0 : String := "1/1/2025, 12:00:00 AM"

/-- A raw record with every key absent. -/
def emptyRaw : RawRecord :=
  { device_id := .undef, timestamp := .undef, shift := .undef, design := .undef
    count := .undef, efficiency := .undef, error1 := .undef, error2 := .undef
    status := .undef }

/-- Re-normalization: read the canonical record back as a raw object and
transform it again. -/
def renormalize (fmtDate : Val → String) (now : String) (x : RawRecord) :
    TransRecord :=
  transformItem fmtDate now (recordToRaw (transformItem fmtDate now x))

/-! ## C1: the status field is not mapped into the closed tag set -/

/-- C1 (counterexample): the raw status `"Running"` is truthy, so
`transformMachineData` keeps it verbatim; the normalized status is the cased
string `"Running"`, which is none of the five canonical `StatusTag` values —
the claimed closed-set (and case-folding) mapping does not happen. -/
theorem status_not_closed_counterexample :
    (transformItem fmt0 now0 { emptyRaw with status := .str "Running" }).status
        = .str "Running" ∧
      Val.str "Running" ∉ statusTags := by
  decide

/-- C1 (amended): the normalizer maps only a falsy status (absent, `null`,
`""`, `0`, `false`) to `"unknown"` and keeps any truthy source status
verbatim; hence the normalized status lies in the closed five-tag set iff the
source status is falsy or is itself already one of the five tags. -/
theorem normalized_status_closed_iff_source (fmtDate : Val → String)
    (now : String) (x : RawRecord) :
    (transformItem fmtDate now x).status ∈ statusTags ↔
      (x.status.truthy = false ∨ x.status ∈ statusTags) := by
  show jsOr x.status (.str "unknown") ∈ statusTags ↔ _
  unfold jsOr
  by_cases h : x.status.truthy = true <;> simp [h, statusTags]

/-! ## C2: normalization is not idempotent -/

/-- A raw record carrying a device id. -/
def rawD1 : RawRecord := { emptyRaw with device_id := .str "D1" }

/-- C2 (counterexample): normalization is not idempotent.  The canonical
record stores the identifier under the key `deviceId`, while the
transformation reads `item.device_id`; re-normalizing the canonical record
for raw input `{device_id: "D1"}` therefore yields `deviceId = "Unknown"`,
a different record. -/
theorem renormalize_differs_counterexample :
    renormalize fmt0 now0 rawD1 ≠ transformItem fmt0 now0 rawD1 := by
  decide

/-- C2 (amended): re-normalizing a canonical record preserves `shift`,
`design`, `status`, `count`, `efficiency`, `error1` and `error2`, but always
resets `deviceId` to `"Unknown"` (the canonical shape has no `device_id` key)
and re-renders `timestamp` from the stored human-readable string; so
normalization is idempotent field-wise except for `deviceId` and
`timestamp`, not on whole records. -/
theorem renormalize_fields (fmtDate : Val → String) (now : String)
    (x : RawRecord) :
    (renormalize fmtDate now x).deviceId = .str "Unknown" ∧
      (renormalize fmtDate now x).shift = (transformItem fmtDate now x).shift ∧
      (renormalize fmtDate now x).design = (transformItem fmtDate now x).design ∧
      (renormalize fmtDate now x).status = (transformItem fmtDate now x).status ∧
      (renormalize fmtDate now x).count = (transformItem fmtDate now x).count ∧
      (renormalize fmtDate now x).efficiency
        = (transformItem fmtDate now x).efficiency ∧
      (renormalize fmtDate now x).error1 = (transformItem fmtDate now x).error1 ∧
      (renormalize fmtDate now x).error2 = (transformItem fmtDate now x).error2 ∧
      (renormalize fmtDate now x).timestamp
        = (if (transformItem fmtDate now x).timestamp ≠ ""
            then fmtDate (.str (transformItem fmtDate now x).timestamp)
            else now) := by
  refine ⟨rfl, ?_, ?_, ?_, ?_, ?_, ?_, ?_, ?_⟩
  · exact jsOr_reapply x.shift (.str "-") rfl
  · exact jsOr_reapply x.design (.str "-") rfl
  · exact jsOr_reapply x.status (.str "unknown") rfl
  · exact jsNullish_reapply x.count (.num 0) rfl
  · exact jsNullish_reapply x.efficiency (.num 0) rfl
  · exact jsNullish_reapply x.error1 (.num 0) rfl
  · exact jsNullish_reapply x.error2 (.num 0) rfl
  · show (if (Val.str (transformItem fmtDate now x).timestamp).truthy then _ else _) = _
    by_cases hs : (transformItem fmtDate now x).timestamp = "" <;>
      simp [Val.truthy, hs, recordToRaw]

/-! ## C3: non-numeric source values are kept, not defaulted -/

/-- C3 (counterexample): the numeric fields are coerced with `?? 0`, which
replaces only `null`/`undefined`; a non-numeric source `count` such as the
string `"abc"` is kept verbatim instead of being replaced by the default 0. -/
theorem nonnumeric_count_kept_counterexample :
    (transformItem fmt0 now0 { emptyRaw with count := .str "abc" }).count
        = .str "abc" ∧
      Val.str "abc" ≠ .num 0 := by
  decide

/-- C3 (amended): for each numeric field, the normalized value is 0 exactly
when the source value is `null`, `undefined` or itself 0; every other source
value — numeric or not — is kept verbatim rather than defaulted. -/
theorem numeric_defaults_nullish_only (fmtDate : Val → String) (now : String)
    (x : RawRecord) :
    ((transformItem fmtDate now x).count = .num 0 ↔
        (x.count = .null ∨ x.count = .undef ∨ x.count = .num 0)) ∧
      ((transformItem fmtDate now x).efficiency = .num 0 ↔
        (x.efficiency = .null ∨ x.efficiency = .undef ∨ x.efficiency = .num 0)) ∧
      ((transformItem fmtDate now x).error1 = .num 0 ↔
        (x.error1 = .null ∨ x.error1 = .undef ∨ x.error1 = .num 0)) ∧
      ((transformItem fmtDate now x).error2 = .num 0 ↔
        (x.error2 = .null ∨ x.error2 = .undef ∨ x.error2 = .num 0)) := by
  exact ⟨jsNullish_zero_eq_zero_iff x.count, jsNullish_zero_eq_zero_iff x.efficiency,
    jsNullish_zero_eq_zero_iff x.error1, jsNullish_zero_eq_zero_iff x.error2⟩

/-! ## C10: empty strings default like absent fields; numbers only on nullish -/

/-- C10: for every raw record, field by field and independently of the other
fields: an empty-string `device_id`, `shift`, `design` or `status` is falsy
and defaults exactly like an absent field (`"Unknown"`, `"-"`, `"-"`,
`"unknown"`), while each numeric field is replaced by 0 exactly on
`null`/`undefined` and otherwise kept verbatim — so an explicit raw 0 is
preserved as 0. -/
theorem empty_string_and_numeric_boundary (fmtDate : Val → String)
    (now : String) (x : RawRecord) :
    (x.device_id = .str "" → (transformItem fmtDate now x).deviceId = .str "Unknown") ∧
      (x.shift = .str "" → (transformItem fmtDate now x).shift = .str "-") ∧
      (x.design = .str "" → (transformItem fmtDate now x).design = .str "-") ∧
      (x.status = .str "" → (transformItem fmtDate now x).status = .str "unknown") ∧
      (x.count.nullish = true → (transformItem fmtDate now x).count = .num 0) ∧
      (x.count.nullish = false → (transformItem fmtDate now x).count = x.count) ∧
      (x.efficiency.nullish = true →
        (transformItem fmtDate now x).efficiency = .num 0) ∧
      (x.efficiency.nullish = false →
        (transformItem fmtDate now x).efficiency = x.efficiency) ∧
      (x.error1.nullish = true → (transformItem fmtDate now x).error1 = .num 0) ∧
      (x.error1.nullish = false → (transformItem fmtDate now x).error1 = x.error1) ∧
      (x.error2.nullish = true → (transformItem fmtDate now x).error2 = .num 0) ∧
      (x.error2.nullish = false → (transformItem fmtDate now x).error2 = x.error2) := by
  refine ⟨?_, ?_, ?_, ?_, ?_, ?_, ?_, ?_, ?_, ?_, ?_, ?_⟩ <;>
    intro h <;>
    simp [transformItem, jsOr, jsNullish, Val.truthy, h]

/-- A concrete raw record exercising the C10 boundary: empty strings for the
string fields, `null`/`undefined`, an explicit 0 and an explicit 3 for the
numeric fields. -/
def rawBoundary : RawRecord :=
  { device_id := .str "", timestamp := .undef, shift := .str "", design := .str ""
    count := .null, efficiency := .num 0, error1 := .undef, error2 := .num 3
    status := .str "" }

/-- Witness for the C10 theorem at `rawBoundary`. -/
theorem empty_string_and_numeric_boundary_witness :
    (transformItem fmt0 now0 rawBoundary).deviceId = .str "Unknown" ∧
      (transformItem fmt0 now0 rawBoundary).shift = .str "-" ∧
      (transformItem fmt0 now0 rawBoundary).design = .str "-" ∧
      (transformItem fmt0 now0 rawBoundary).status = .str "unknown" ∧
      (transformItem fmt0 now0 rawBoundary).count = .num 0 ∧
      (transformItem fmt0 now0 rawBoundary).efficiency = .num 0 ∧
      (transformItem fmt0 now0 rawBoundary).error1 = .num 0 ∧
      (transformItem fmt0 now0 rawBoundary).error2 = .num 3 := by
  obtain ⟨h1, h2, h3, h4, hc, hc', he, he', hf, hf', hg, hg'⟩ :=
    empty_string_and_numeric_boundary fmt0 now0 rawBoundary
  exact ⟨h1 rfl, h2 rfl, h3 rfl, h4 rfl, hc rfl, he' rfl, hf rfl, hg' rfl⟩

/-! ## C4: aggregation totals -/

theorem foldl_add_map {α : Type} (f : α → ℚ) (l : List α) (init : ℚ) :
    l.foldl (fun s d => s + f d) init = init + (l.map f).sum := by
  induction l generalizing init with
  | nil => simp
  | cons d tl ih => simp [ih, add_assoc]

/-- The two example records of the spec's aggregation-correctness property. -/
def exRunning : MachineRecord :=
  { deviceId := "M1", timestamp := "t1", shift := "A", design := "X"
    count := 10, efficiency := 90, error1 := 1, error2 := 0, status := "running" }

/-- Second example record (idle, count 5, efficiency 70, error2 2). -/
def exIdle : MachineRecord :=
  { deviceId := "M2", timestamp := "t2", shift := "B", design := "Y"
    count := 5, efficiency := 70, error1 := 0, error2 := 2, status := "idle" }

/-- C4: `buildSummary` computes the sum of `count`, the arithmetic mean of
`efficiency` (0 on the empty collection), the sum of `error1 + error2`, and
the independent sums of `error1` and of `error2`; on the empty collection all
numeric fields are 0 and `designs` is empty; and on the spec's two example
records it returns the expected concrete values. -/
theorem buildSummary_totals (data : List MachineRecord) :
    (buildSummary data).total_production = (data.map (fun d => d.count)).sum ∧
      (buildSummary data).avg_efficiency =
        (if data = [] then 0 else (data.map (fun d => d.efficiency)).sum / data.length) ∧
      (buildSummary data).total_errors
        = (data.map (fun d => d.error1 + d.error2)).sum ∧
      (buildSummary data).error1_count = (data.map (fun d => d.error1)).sum ∧
      (buildSummary data).error2_count = (data.map (fun d => d.error2)).sum ∧
      buildSummary [] =
        { total_production := 0, avg_efficiency := 0, total_errors := 0
          error1_count := 0, error2_count := 0
          status_summary :=
            { total_machines := 0, running := 0, idle := 0, stopped := 0
              maintenance := 0 }
          designs := [] } ∧
      (buildSummary [exRunning, exIdle]).total_production = 15 ∧
      (buildSummary [exRunning, exIdle]).avg_efficiency = 80 ∧
      (buildSummary [exRunning, exIdle]).total_errors = 3 ∧
      (buildSummary [exRunning, exIdle]).error1_count = 1 ∧
      (buildSummary [exRunning, exIdle]).error2_count = 2 := by
  refine ⟨?_, ?_, ?_, ?_, ?_, by rfl,
    by norm_num [buildSummary, exRunning, exIdle, orZero],
    by norm_num [buildSummary, exRunning, exIdle, orZero],
    by norm_num [buildSummary, exRunning, exIdle, orZero],
    by norm_num [buildSummary, exRunning, exIdle, orZero],
    by norm_num [buildSummary, exRunning, exIdle, orZero]⟩
  · show data.foldl _ 0 = _
    simp only [orZero_eq]
    rw [foldl_add_map, zero_add]
  · show (if data.length = 0 then 0 else _) = _
    simp only [orZero_eq]
    by_cases h : data = []
    · simp [h]
    · rw [if_neg (by simpa using h), if_neg h, foldl_add_map, zero_add]
  · show data.foldl _ 0 = _
    simp only [orZero_eq, add_assoc]
    rw [foldl_add_map, zero_add]
  · show data.foldl _ 0 = _
    simp only [orZero_eq]
    rw [foldl_add_map, zero_add]
  · show data.foldl _ 0 = _
    simp only [orZero_eq]
    rw [foldl_add_map, zero_add]

/-! ## C5: the status summary partitions the records -/

theorem countP_four_statuses (l : List MachineRecord) :
    l.countP (fun d => d.status == "running") + l.countP (fun d => d.status == "idle")
      + l.countP (fun d => d.status == "stopped")
      + l.countP (fun d => d.status == "maintenance")
    = l.countP (fun d => d.status == "running" || d.status == "idle"
        || d.status == "stopped" || d.status == "maintenance") := by
  induction l with
  | nil => rfl
  | cons d tl ih =>
    simp only [List.countP_cons]
    by_cases h1 : d.status = "running"
    · simp [h1]; omega
    · by_cases h2 : d.status = "idle"
      · simp [h1, h2]; omega
      · by_cases h3 : d.status = "stopped"
        · simp [h1, h2, h3]; omega
        · by_cases h4 : d.status = "maintenance"
          · simp [h1, h2, h3, h4]; omega
          · simp [h1, h2, h3, h4]; omega

/-- C5: in the summary built by `buildSummary`, `total_machines` is the
record count, each of the four buckets counts exactly the records whose
status equals that tag (mutually exclusive buckets), the four buckets sum to
at most the total, and they sum to exactly the total iff every record's
status is one of the four named tags (so records with any other status —
e.g. `unknown` — are in the total but in no bucket). -/
theorem statusSummary_partition (data : List MachineRecord) :
    (buildSummary data).status_summary.total_machines = data.length ∧
      (buildSummary data).status_summary.running
        = (data.filter (fun d => decide (d.status = "running"))).length ∧
      (buildSummary data).status_summary.idle
        = (data.filter (fun d => decide (d.status = "idle"))).length ∧
      (buildSummary data).status_summary.stopped
        = (data.filter (fun d => decide (d.status = "stopped"))).length ∧
      (buildSummary data).status_summary.maintenance
        = (data.filter (fun d => decide (d.status = "maintenance"))).length ∧
      (buildSummary data).status_summary.running
          + (buildSummary data).status_summary.idle
          + (buildSummary data).status_summary.stopped
          + (buildSummary data).status_summary.maintenance
        ≤ (buildSummary data).status_summary.total_machines ∧
      ((buildSummary data).status_summary.running
            + (buildSummary data).status_summary.idle
            + (buildSummary data).status_summary.stopped
            + (buildSummary data).status_summary.maintenance
          = (buildSummary data).status_summary.total_machines ↔
        ∀ d ∈ data, d.status = "running" ∨ d.status = "idle"
          ∨ d.status = "stopped" ∨ d.status = "maintenance") := by
  have hfun : ∀ t : String,
      (fun d : MachineRecord => d.status == t) = (fun d => decide (d.status = t)) := by
    intro t
    funext d
    by_cases h : d.status = t <;> simp [h]
  have hlen : ∀ t : String,
      (data.filter (fun d : MachineRecord => d.status == t)).length
        = data.countP (fun d => d.status == t) := by
    intro t
    rw [List.countP_eq_length_filter]
  refine ⟨rfl, ?_, ?_, ?_, ?_, ?_, ?_⟩
  · show (data.filter (fun d => d.status == "running")).length = _
    rw [hfun]
  · show (data.filter (fun d => d.status == "idle")).length = _
    rw [hfun]
  · show (data.filter (fun d => d.status == "stopped")).length = _
    rw [hfun]
  · show (data.filter (fun d => d.status == "maintenance")).length = _
    rw [hfun]
  · show (data.filter (fun d => d.status == "running")).length
        + (data.filter (fun d => d.status == "idle")).length
        + (data.filter (fun d => d.status == "stopped")).length
        + (data.filter (fun d => d.status == "maintenance")).length ≤ data.length
    rw [hlen, hlen, hlen, hlen, countP_four_statuses]
    exact List.countP_le_length _
  · show (data.filter (fun d => d.status == "running")).length
          + (data.filter (fun d => d.status == "idle")).length
          + (data.filter (fun d => d.status == "stopped")).length
          + (data.filter (fun d => d.status == "maintenance")).length = data.length ↔ _
    rw [hlen, hlen, hlen, hlen, countP_four_statuses, List.countP_eq_length]
    simp [Bool.or_eq_true, beq_iff_eq]
    exact forall₂_congr fun d _ => by tauto

/-! ## C6: the filter is an AND of exact-equality facets, and is stable -/

theorem ite_false_else (c X : Bool) : (if c = true then false else X) = (!c && X) := by
  cases c <;> simp

theorem facet_decide (v field : String) :
    ((v == "all") || (field == v)) = decide (v = "all" ∨ field = v) := by
  by_cases h1 : v = "all" <;> by_cases h2 : field = v <;> simp [h1, h2]

theorem passesFilter_decide (sel : FilterSpec) (r : MachineRecord) :
    passesFilter sel r =
      decide ((sel.device = "all" ∨ r.deviceId = sel.device) ∧
        ((sel.shift = "all" ∨ r.shift = sel.shift) ∧
          ((sel.design = "all" ∨ r.design = sel.design) ∧
            (sel.status = "all" ∨ r.status = sel.status)))) := by
  unfold passesFilter
  rw [ite_false_else, ite_false_else, ite_false_else, ite_false_else]
  simp only [bne, Bool.not_and, Bool.not_not, Bool.and_true]
  rw [facet_decide, facet_decide, facet_decide, facet_decide]
  simp only [← Bool.decide_and]

/-- C6: `filteredData` returns exactly the records passing, for every facet
whose selection is not `"all"`, an exact string-equality test against that
facet's field, with the four facets conjoined (so the selection `"all"`
imposes no constraint); and the result is a sublist of the input, i.e. the
original relative order is preserved (a stable filter, not a re-sort). -/
theorem filteredData_conjunction_stable (machineData : List MachineRecord)
    (sel : FilterSpec) :
    filteredData machineData sel =
        machineData.filter (fun r =>
          decide ((sel.device = "all" ∨ r.deviceId = sel.device) ∧
            ((sel.shift = "all" ∨ r.shift = sel.shift) ∧
              ((sel.design = "all" ∨ r.design = sel.design) ∧
                (sel.status = "all" ∨ r.status = sel.status))))) ∧
      (filteredData machineData sel).Sublist machineData := by
  constructor
  · unfold filteredData
    exact List.filter_congr fun r _ => passesFilter_decide sel r
  · exact List.filter_sublist machineData

/-! ## C7: shift facet options are independent of the status selection -/

/-- C7: the shift facet option list is derived from the unfiltered
`machineData` only — it equals the insertion-ordered distinct shift values of
the whole collection — so any two status-facet selections yield the identical
shift option list. -/
theorem shift_options_status_independent (machineData : List MachineRecord)
    (base : FilterSpec) (s1 s2 : String) :
    (renderDerived machineData { base with status := s1 }).shifts
        = (renderDerived machineData { base with status := s2 }).shifts ∧
      (renderDerived machineData { base with status := s1 }).shifts
        = dedupFirst (machineData.map (fun item => item.shift)) :=
  ⟨rfl, rfl⟩

/-! ## C8: ingestion failure leaves the visible state untouched -/

/-- A concrete dashboard state holding previously applied data. -/
def dashW : DashState ℕ :=
  { machineData := [transformItem fmt0 now0 rawD1], apiSummaryData := some 1
    isLoading := true }

/-- C8: whenever the request outcome is an ingestion failure (and transport
errors, non-ok responses, `success:false` envelopes and non-array `data` all
are such failures), `fetchMachineData` leaves the previously applied record
collection and summary exactly as they were and reports the failure as a
toast notice; nothing is thrown (the transition is total and returns the
notice as a value). -/
theorem ingestion_failure_preserves_visible_state {σ : Type}
    (summarize : List TransRecord → σ) (fmtDate : Val → String) (now : String)
    (s : DashState σ) (o : FetchOutcome) (h : o.ingestRows = none) :
    (fetchApply summarize fmtDate now s o).1.machineData = s.machineData ∧
      (fetchApply summarize fmtDate now s o).1.apiSummaryData = s.apiSummaryData ∧
      ((fetchApply summarize fmtDate now s o).2).isSome = true ∧
      FetchOutcome.netError.ingestRows = none ∧
      FetchOutcome.httpError.ingestRows = none ∧
      (∀ d m, (FetchOutcome.envelope false d m).ingestRows = none) ∧
      (∀ b m, (FetchOutcome.envelope b none m).ingestRows = none) := by
  refine ⟨?_, ?_, ?_, rfl, rfl, fun d m => rfl, fun b m => by cases b <;> rfl⟩ <;>
    simp [fetchApply, h]

/-- Witness for the C8 theorem: a failed (network-error) poll against a state
holding one record and a summary. -/
theorem ingestion_failure_preserves_visible_state_witness :
    (fetchApply (fun l : List TransRecord => l.length) fmt0 now0 dashW
          .netError).1.machineData = dashW.machineData ∧
      (fetchApply (fun l : List TransRecord => l.length) fmt0 now0 dashW
          .netError).1.apiSummaryData = dashW.apiSummaryData ∧
      ((fetchApply (fun l : List TransRecord => l.length) fmt0 now0 dashW
          .netError).2).isSome = true := by
  obtain ⟨h1, h2, h3, -, -, -, -⟩ :=
    ingestion_failure_preserves_visible_state
      (fun l : List TransRecord => l.length) fmt0 now0 dashW .netError rfl
  exact ⟨h1, h2, h3⟩

/-! ## C9: late results are applied, not suppressed -/

/-- A raw row returned by a late request. -/
def rawX : RawRecord := { emptyRaw with device_id := .str "D1", count := .num 7 }

/-- Initial session: nothing fetched yet, auto-refresh on, no request issued. -/
def initSession : SessionState ℕ :=
  { selectedMachine := "all", autoRefresh := true, requests := []
    dash := { machineData := [], apiSummaryData := none, isLoading := false } }

/-- Trace: the user selects device "D1" (issuing request 0), then selects
"D2" before request 0 completes; request 0 then completes successfully. -/
def traceFilterChange : List SessionEvent :=
  [.selectDevice "D1", .selectDevice "D2",
   .complete 0 (.envelope true (some [rawX]) none)]

/-- Trace: the user selects device "D1" (issuing request 0), auto-refresh is
stopped, and request 0 then completes successfully. -/
def traceStop : List SessionEvent :=
  [.selectDevice "D1", .stopAutoRefresh,
   .complete 0 (.envelope true (some [rawX]) none)]

/-- C9 (counterexample): in the trace where the device filter changes from
"D1" to "D2" between issuing request 0 and its completion, the completed
result is still applied — the visible record collection becomes the
transformed payload instead of staying empty; and in the trace where
auto-refresh is stopped before the in-flight request completes, the visible
summary is still replaced.  The claimed last-selected-wins/stop suppression
does not exist in the code. -/
theorem late_result_applied_counterexample :
    (runSession (fun l => l.length) fmt0 now0 initSession
          traceFilterChange).dash.machineData
        = [transformItem fmt0 now0 rawX] ∧
      [transformItem fmt0 now0 rawX] ≠ ([] : List TransRecord) ∧
      (runSession (fun l => l.length) fmt0 now0 initSession
          traceStop).dash.apiSummaryData = some 1 ∧
      some 1 ≠ (none : Option ℕ) := by
  decide

/-- C9 (amended): every successfully completing ingestion request is applied
to the visible state unconditionally — the completion handler consults
neither the current device selection nor the auto-refresh flag — so the
visible collection and summary reflect the last-arrived result
(last-arrived-wins), not the last-selected one, and `stop()` does not
suppress application of in-flight results. -/
theorem late_result_always_applied {σ : Type}
    (summarize : List TransRecord → σ) (fmtDate : Val → String) (now : String)
    (s : SessionState σ) (i : ℕ) (o : FetchOutcome) (rows : List RawRecord)
    (hi : i < s.requests.length) (ho : o.ingestRows = some rows) :
    (sessionStep summarize fmtDate now s (.complete i o)).dash.machineData
        = transformMachineData fmtDate now rows ∧
      (sessionStep summarize fmtDate now s (.complete i o)).dash.apiSummaryData
        = some (summarize (transformMachineData fmtDate now rows)) := by
  simp [sessionStep, hi, fetchApply, ho]

/-- A session whose only issued request (for "D1") is stale: the selection
has moved to "D2" and auto-refresh is off. -/
def staleSession : SessionState ℕ :=
  { selectedMachine := "D2", autoRefresh := false, requests := ["D1"]
    dash := { machineData := [], apiSummaryData := none, isLoading := true } }

/-- Witness for the C9 amended theorem at `staleSession`. -/
theorem late_result_always_applied_witness :
    (sessionStep (fun l : List TransRecord => l.length) fmt0 now0 staleSession
          (.complete 0 (.envelope true (some [rawX]) none))).dash.machineData
      = transformMachineData fmt0 now0 [rawX] :=
  (late_result_always_applied (fun l : List TransRecord => l.length) fmt0 now0
    staleSession 0 (.envelope true (some [rawX]) none) [rawX] (by decide) rfl).1
